import Mathlib

/-!
Verification development for the ai-phone-bot call-session orchestrator.

Shallow embedding of the relevant source functions:
- `src/src/models/Reservation.model.js` (`checkAvailability`)
- `src/src/models/Call.model.js` (the `pre('save')` cost hook)
- `src/src/services/gpt.service.js` (`generateResponse`, `detectIntent`,
  `selectModel`, `normalizeForCache`, FAQ cache)
- `src/src/services/tts.service.js` (`CallHandlerService`: session map,
  `handleSpeechResponse`, `handleTimeout`, `handleCallEnd`,
  `shouldCreateReservation`, `createReservation`, `shouldEndCall`)

Dates are modelled as day indices (the source compares the calendar day of a
`Date`), call sessions as a single tracked call id, and the external
collaborators (OpenAI, the TTS synthesizer, MongoDB persistence) as explicit
environment inputs supplied per event.
-/

namespace PhoneBot

/-! ## String helpers (JS `includes`, regex-free substring matching) -/

/-- `isPrefixCh n h` holds when the char list `n` is a prefix of `h`. -/
def isPrefixCh : List Char → List Char → Bool
  | [], _ => true
  | _ :: _, [] => false
  | a :: as, b :: bs => a == b && isPrefixCh as bs

/-- Whether `needle` occurs as a contiguous substring of the char list. -/
def hasSubstrCh (needle : List Char) : List Char → Bool
  | [] => needle.isEmpty
  | c :: rest => isPrefixCh needle (c :: rest) || hasSubstrCh needle rest

/-- JS `hay.includes(needle)` over strings. -/
def containsSub (hay needle : String) : Bool :=
  hasSubstrCh needle.toList hay.toList

/-- Collapse every run of whitespace to a single space
(JS `replace(/\s+/g, ' ')`). -/
def collapseWs : List Char → List Char
  | [] => []
  | [c] => if c.isWhitespace then [' '] else [c]
  | c :: d :: rest =>
    if c.isWhitespace && d.isWhitespace then collapseWs (d :: rest)
    else (if c.isWhitespace then ' ' else c) :: collapseWs (d :: rest)

/-- JS `trim()` over a char list. -/
def trimCh (cs : List Char) : List Char :=
  ((cs.dropWhile Char.isWhitespace).reverse.dropWhile Char.isWhitespace).reverse

/-- JS `message.toLowerCase().trim()` (Hebrew letters are caseless). -/
def jsToLowerTrim (s : String) : List Char :=
  trimCh (s.toList.map Char.toLower)

/-! ## GPT service: cache keys (gpt.service.js 325-352) -/

/-- `GPTService.normalizeForCache`: lowercase, trim, strip `? ! . ,`,
collapse whitespace, truncate to 100 units. -/
def normalizeForCache (message : String) : String :=
  let lowered := jsToLowerTrim message
  let stripped := lowered.filter (fun c => !(c == '?' || c == '!' || c == '.' || c == ','))
  String.mk ((collapseWs stripped).take 100)

/-- Cache key built in `checkFAQCache` / `cacheResponse`:
`faq:{businessId}:{normalizeForCache(message)}`. -/
def faqKey (businessId : Nat) (message : String) : String :=
  "faq:" ++ toString businessId ++ ":" ++ normalizeForCache message

/-! ## Intents (gpt.service.js `initializeIntentPatterns` / `detectIntent`) -/

inductive Intent
  | reservation | hours | menu | location | cancel | confirm | deny
  | complaint | faq | general | error
deriving DecidableEq, Repr

/-- The pattern table of `initializeIntentPatterns`, in declaration order.
The two regexes are expanded into their substring alternatives
(`/רוצ[הי] להזמין/`, `/אפשר (להזמין|לקבוע)/` have no anchors or
quantifiers, so testing them equals substring search on the alternatives). -/
def intentPatterns : List (Intent × List String) :=
  [ (Intent.reservation,
      ["הזמנה", "להזמין", "שולחן", "מקום", "תור",
       "רוצה להזמין", "רוצי להזמין", "אפשר להזמין", "אפשר לקבוע",
       "ריזרב", "בוקינג"]),
    (Intent.hours,
      ["שעות פתיחה", "מתי פתוח", "מתי סוגר", "שעות פעילות",
       "פתוח היום", "פתוחים", "עד מתי", "משעה"]),
    (Intent.menu,
      ["תפריט", "מנות", "אוכל", "מה יש", "מחירים",
       "צמחוני", "טבעוני", "כשר", "אלרגיה"]),
    (Intent.location,
      ["איפה", "כתובת", "מיקום", "איך מגיעים", "חניה",
       "נווט", "וויז", "גוגל מפות"]),
    (Intent.cancel, ["לבטל", "ביטול", "לשנות הזמנה", "לדחות"]),
    (Intent.confirm,
      ["כן", "נכון", "בסדר", "מאשר", "אישור", "בדיוק", "זהו", "טוב"]),
    (Intent.deny,
      ["לא", "אל", "לא רוצה", "ביי", "להתראות", "תודה זהו", "סיימתי"]),
    (Intent.complaint,
      ["תלונה", "בעיה", "לא מרוצה", "גרוע", "נורא", "מתלונן", "רוצה מנהל"]),
    (Intent.faq, ["יש", "האם", "אפשר", "מקבלים", "עובד"]) ]

/-- `GPTService.detectIntent`: lowercase + trim, first intent (in table
order) with a matching pattern wins; no match gives `general`. -/
def detectIntent (message : String) : Intent :=
  let normalized := jsToLowerTrim message
  match intentPatterns.find? (fun p => p.2.any (fun pat => hasSubstrCh pat.toList normalized)) with
  | some p => p.1
  | none => Intent.general

/-! ## Model selection (gpt.service.js `selectModel`) -/

structure Models where
  fast : String
  smart : String
deriving DecidableEq, Repr

def defaultModels : Models :=
  { fast := "gpt-3.5-turbo", smart := "gpt-4-turbo-preview" }

/-! ## Conversation turns (tts.service.js conversation entries) -/

inductive Role
  | user | assistant
deriving DecidableEq, Repr

structure Turn where
  role : Role
  content : String
  confidence : Option ℚ := none
  intent : Option Intent := none
  tokens : Option Nat := none
deriving DecidableEq, Repr

/-- `GPTService.selectModel(intent, message, history)`. -/
def selectModel (models : Models) (intent : Intent) (message : String)
    (history : List Turn) : String :=
  if intent = Intent.hours ∨ intent = Intent.location ∨ intent = Intent.confirm
      ∨ intent = Intent.deny ∨ intent = Intent.faq then
    models.fast
  else if history.length < 4 ∧ message.length < 50 then
    models.fast
  else if (intent = Intent.reservation ∨ intent = Intent.complaint ∨ intent = Intent.cancel)
      ∧ (history.length > 6 ∨ message.length > 100) then
    models.smart
  else
    models.fast

/-! ## Reservation drafts (tts.service.js `reservationData`) -/

structure ResData where
  date : Option Nat := none
  time : Option String := none
  partySize : Option Nat := none
  customerName : Option String := none
  customerPhone : Option String := none
  specialRequests : Option String := none
deriving DecidableEq, Repr

/-- One field of the JS spread `{...old, ...extracted}`: a field present in
the extracted object overrides the old value. -/
def overrideField {α : Type} (extracted old : Option α) : Option α :=
  match extracted with
  | some v => some v
  | none => old

/-- `callState.reservationData = {...callState.reservationData,
...gptResponse.extractedData}` (tts.service.js 958-961). -/
def mergeResData (old extracted : ResData) : ResData :=
  { date := overrideField extracted.date old.date,
    time := overrideField extracted.time old.time,
    partySize := overrideField extracted.partySize old.partySize,
    customerName := overrideField extracted.customerName old.customerName,
    customerPhone := overrideField extracted.customerPhone old.customerPhone,
    specialRequests := overrideField extracted.specialRequests old.specialRequests }

/-! ## GPT response generation (gpt.service.js `generateResponse`) -/

/-- A live FAQ cache entry (NodeCache `get` returns it only within TTL). -/
structure CachedFAQ where
  answer : String
  intent : Intent
deriving DecidableEq, Repr

/-- The external collaborators consulted during one `generateResponse` call:
the FAQ cache content at lookup time (a `none` result is a miss or an
expired entry), the OpenAI chat completion outcome (`none` models a
throw/timeout), and the structured-extraction outcome (`none` models a
failed extraction call or unparsable JSON). -/
structure GPTEnv where
  faqCache : String → Option CachedFAQ
  openaiResult : Option (String × Nat) := none
  extractionResult : Option ResData := none

structure GPTParams where
  userMessage : String
  conversationHistory : List Turn
  businessId : Nat

structure GPTResponse where
  text : String
  intent : Intent
  extractedData : Option ResData := none
  tokensUsed : Option Nat := none
  model : Option String := none
  source : Option String := none
  error : Bool := false
  /-- How many OpenAI chat-completion calls for the main response this
  invocation issued (0 on the cache-hit branch, 1 otherwise). -/
  responderCalls : Nat := 0
  /-- The `(key, value)` pair stored by `cacheResponse`, when step 8 runs. -/
  cacheWrite : Option (String × CachedFAQ) := none
deriving DecidableEq, Repr

/-- Fallback text of the `catch` branch of `generateResponse`. -/
def fallbackText : String := "סליחה, לא הצלחתי להבין. אפשר לחזור על זה?"

/-- `GPTService.checkFAQCache(message, business)`. -/
def checkFAQCache (cache : String → Option CachedFAQ) (businessId : Nat)
    (message : String) : Option CachedFAQ :=
  cache (faqKey businessId message)

/-- `GPTService.cacheResponse(message, response, intent, businessId)`:
the key/value pair written into the FAQ cache. -/
def cacheResponse (message response : String) (intent : Intent)
    (businessId : Nat) : String × CachedFAQ :=
  (faqKey businessId message, { answer := response, intent := intent })

/-- `GPTService.extractStructuredData(response, intent, userMessage)`:
only reservation-intent turns attempt extraction; any failure yields null. -/
def extractStructuredData (intent : Intent) (env : GPTEnv) : Option ResData :=
  if intent = Intent.reservation then env.extractionResult else none

/-- `GPTService.generateResponse` (gpt.service.js 42-141).
Step 1 checks the FAQ cache and on a hit returns the cached answer with
`tokensUsed: 0` and `model: 'cache'` without touching OpenAI. Otherwise the
intent and model are computed, OpenAI is invoked (a throw lands in the
`catch` branch returning the fixed fallback with intent `error`), structured
data is extracted for reservation intents, and informational answers are
written back to the FAQ cache. Note: no recognition-confidence input exists
in this function's signature. -/
def generateResponse (p : GPTParams) (env : GPTEnv) : GPTResponse :=
  match checkFAQCache env.faqCache p.businessId p.userMessage with
  | some hit =>
    { text := hit.answer, intent := hit.intent, tokensUsed := some 0,
      model := some "cache", source := some "faq_cache", responderCalls := 0 }
  | none =>
    let intent := detectIntent p.userMessage
    let model := selectModel defaultModels intent p.userMessage p.conversationHistory
    match env.openaiResult with
    | none =>
      { text := fallbackText, intent := Intent.error, error := true,
        responderCalls := 1 }
    | some (text, tokens) =>
      let extractedData := extractStructuredData intent env
      let cacheWrite :=
        if intent = Intent.faq ∨ intent = Intent.hours ∨ intent = Intent.location then
          some (cacheResponse p.userMessage text intent p.businessId)
        else none
      { text := text, intent := intent, extractedData := extractedData,
        tokensUsed := some tokens, model := some model, source := some "gpt",
        responderCalls := 1, cacheWrite := cacheWrite }

/-! ## Reservation model (Reservation.model.js) -/

inductive RStatus
  | pending | confirmed | cancelled | completed | noShow
deriving DecidableEq, Repr

structure Reservation where
  businessId : Nat
  /-- The calendar day of the booking (the source compares the whole day
  `[startOfDay, endOfDay]` of a `Date`, i.e. equality of the day). -/
  date : Nat
  time : String
  partySize : Nat
  status : RStatus
  customerName : String := ""
  customerPhone : String := ""
deriving DecidableEq, Repr

structure ReservationSettings where
  enabled : Bool := true
  maxPartySize : Nat := 15
  advanceBookingDays : Nat := 30
deriving DecidableEq, Repr

structure Business where
  id : Nat
  reservationSettings : ReservationSettings := {}
deriving DecidableEq, Repr

/-- The hardcoded `maxCapacityPerSlot = 50` of
`ReservationSchema.statics.checkAvailability` (Reservation.model.js 183);
the source comment reads "this should be configurable per business". -/
def maxCapacityPerSlot : Nat := 50

/-- The reservations the availability query selects: same business, same
day, same time string, status `pending` or `confirmed`. -/
def slotReservations (store : List Reservation) (businessId date : Nat)
    (time : String) : List Reservation :=
  store.filter (fun r =>
    r.businessId == businessId && r.date == date && r.time == time &&
    (r.status == RStatus.pending || r.status == RStatus.confirmed))

/-- The return shape of `checkAvailability`. -/
structure Availability where
  available : Bool
  currentBookings : Nat
  currentGuests : Nat
  remainingCapacity : Int
deriving DecidableEq, Repr

/-- `ReservationSchema.statics.checkAvailability(businessId, date, time,
partySize)` (Reservation.model.js 157-191). The business document is only
fetched for an existence check (the found case is modelled); the capacity
bound is the constant `maxCapacityPerSlot`, not the per-business setting. -/
def checkAvailability (business : Business) (store : List Reservation)
    (date : Nat) (time : String) (partySize : Nat) : Availability :=
  let existing := slotReservations store business.id date time
  let totalGuests := existing.foldl (fun sum r => sum + r.partySize) 0
  { available := totalGuests + partySize ≤ maxCapacityPerSlot,
    currentBookings := existing.length,
    currentGuests := totalGuests,
    remainingCapacity := (maxCapacityPerSlot : Int) - (totalGuests : Int) }

/-- Occupancy of a slot: sum of `partySize` over pending/confirmed
reservations for the `(businessId, date, time)` key. -/
def slotOccupancy (store : List Reservation) (businessId date : Nat)
    (time : String) : Nat :=
  (slotReservations store businessId date time).foldl (fun sum r => sum + r.partySize) 0

/-! ## Two concurrent booking attempts over the shared store

`CallHandlerService.createReservation` (tts.service.js 1266-1325) performs
`Reservation.checkAvailability(...)` and then, if available,
`Reservation.create({..., status: 'confirmed'})` as two separate awaited
store operations with no revalidation between them. Under the concurrent
webhook runtime, the availability reads and the creations of two sessions
may interleave; each interleaving step below is one of those awaited store
operations, executed atomically by the store. -/

/-- One store operation of one of the two racing attempts. -/
inductive RaceOp
  | check1 | check2 | commit1 | commit2
deriving DecidableEq, Repr

structure RaceState where
  store : List Reservation := []
  avail1 : Option Availability := none
  avail2 : Option Availability := none
  /-- `some true` = reservation committed; `some false` = the attempt saw
  `available: false` and returned the NOT_AVAILABLE (null) result. -/
  booked1 : Option Bool := none
  booked2 : Option Bool := none
deriving Repr

def raceStep (business : Business) (date : Nat) (time : String)
    (p1 p2 : Nat) (st : RaceState) : RaceOp → RaceState
  | RaceOp.check1 =>
    { st with avail1 := some (checkAvailability business st.store date time p1) }
  | RaceOp.check2 =>
    { st with avail2 := some (checkAvailability business st.store date time p2) }
  | RaceOp.commit1 =>
    match st.avail1 with
    | none => st
    | some a =>
      if a.available then
        { st with
          store := st.store ++
            [{ businessId := business.id, date := date, time := time,
               partySize := p1, status := RStatus.confirmed }]
          booked1 := some true }
      else { st with booked1 := some false }
  | RaceOp.commit2 =>
    match st.avail2 with
    | none => st
    | some a =>
      if a.available then
        { st with
          store := st.store ++
            [{ businessId := business.id, date := date, time := time,
               partySize := p2, status := RStatus.confirmed }]
          booked2 := some true }
      else { st with booked2 := some false }

def runRace (business : Business) (date : Nat) (time : String)
    (p1 p2 : Nat) (sched : List RaceOp) : RaceState :=
  sched.foldl (raceStep business date time p1 p2) {}

/-! ## Call session orchestrator (tts.service.js `CallHandlerService`) -/

/-- The per-call state stored in `this.activeCalls` (tts.service.js
839-847); `timeoutCount` starts absent, i.e. 0. -/
structure CallState where
  conversation : List Turn := []
  currentIntent : Option Intent := none
  reservationData : ResData := {}
  turnCount : Nat := 0
  timeoutCount : Nat := 0
deriving DecidableEq, Repr

/-- `CallHandlerService.shouldCreateReservation` (tts.service.js
1257-1261): date, time and partySize present, plus a name or a phone. -/
def shouldCreateReservation (cs : CallState) : Bool :=
  cs.reservationData.date.isSome && cs.reservationData.time.isSome &&
  cs.reservationData.partySize.isSome &&
  (cs.reservationData.customerName.isSome || cs.reservationData.customerPhone.isSome)

/-- The farewell regex `/להתראות|ביי|תודה זהו|סיימתי/` of `shouldEndCall`. -/
def goodbyeMatch (s : String) : Bool :=
  containsSub s "להתראות" || containsSub s "ביי" ||
  containsSub s "תודה זהו" || containsSub s "סיימתי"

/-- `CallHandlerService.shouldEndCall(gptResponse, callState)`
(tts.service.js 1330-1352). -/
def shouldEndCall (g : GPTResponse) (cs : CallState) : Bool :=
  if g.intent = Intent.deny ∧
      cs.conversation.any (fun t => t.role == Role.user && goodbyeMatch t.content) then
    true
  else if cs.turnCount > 20 then
    true
  else if cs.currentIntent = some Intent.reservation ∧ shouldCreateReservation cs then
    true
  else
    false

/-- Real-time events emitted through Socket.IO (`emitCallEvent`). -/
inductive Emitted
  | callStarted
  | callTurn
  | callEnded (reason : String)
  | reservationCreated
deriving DecidableEq, Repr

/-- The orchestrator state tracked for one call id: the `activeCalls` entry
(`none` once deleted or never created), the shared reservation store, the
emitted Socket.IO events, the number of `createReservation` booking
attempts run, and the number of OpenAI response calls consumed. -/
structure OrchState where
  session : Option CallState := none
  store : List Reservation := []
  emitted : List Emitted := []
  attempts : Nat := 0
  modelCalls : Nat := 0

/-- Collaborator outcomes for one `SpeechResult` webhook: the GPT
environment plus whether the persistence work inside `handleCallEnd`
(summary generation, `call.save()`, stats update) completes without
throwing. When it throws, the `catch` at tts.service.js 1208 is reached
before `this.activeCalls.delete(callSid)` (line 1196) and before the
`call:ended` emit (line 1199). -/
structure TurnEnv where
  gpt : GPTEnv
  finalizeOk : Bool := true

structure TimeoutEnv where
  finalizeOk : Bool := true

/-- Inbound carrier webhooks for the tracked call after the incoming-call
event: a speech result (with its recognition confidence) or a silence
timeout redirect. -/
inductive Event
  | speech (text : String) (confidence : ℚ) (env : TurnEnv)
  | timeout (env : TimeoutEnv)

/-- `CallHandlerService.handleCallEnd(callSid, reason, callState, business)`
(tts.service.js 1101-1215), restricted to the observables modelled here.
With a live `callState` whose finalization throws, the `catch` branch
returns a bare hangup: the session stays in `activeCalls` and no
`call:ended` event is emitted. Otherwise the session entry is deleted and
`call:ended` is emitted with the given reason. -/
def handleCallEnd (reason : String) (callState : Option CallState)
    (finalizeOk : Bool) (st : OrchState) : OrchState :=
  if callState.isSome ∧ ¬finalizeOk then st
  else
    { st with
      session := none
      emitted := st.emitted ++ [Emitted.callEnded reason] }

/-- `CallHandlerService.createReservation(callState, business)`
(tts.service.js 1266-1325): availability check, then creation of a
`confirmed` reservation when available, with the NOT_AVAILABLE case
returning null. The create call passes `customerName: data.customerName ||
'לקוח'` (always valid) and `customerPhone: data.customerPhone ||
callState.callerNumber` — but the `activeCalls` entry created at lines
839-847 never stores a `callerNumber` field, so when the draft has no
phone the value is undefined and `Reservation.create` fails the schema's
required-field validation on `customerPhone` (Reservation.model.js 33-36):
the `catch` returns null, nothing is stored and no event is emitted. A run
of this function is one booking attempt, whatever its outcome. -/
def createReservation (business : Business) (cs : CallState)
    (st : OrchState) : OrchState :=
  match cs.reservationData.date, cs.reservationData.time, cs.reservationData.partySize with
  | some date, some time, some partySize =>
    if (checkAvailability business st.store date time partySize).available then
      match cs.reservationData.customerPhone with
      | some phone =>
        { st with
          attempts := st.attempts + 1
          store := st.store ++
            [{ businessId := business.id, date := date, time := time,
               partySize := partySize, status := RStatus.confirmed,
               customerName := cs.reservationData.customerName.getD "לקוח",
               customerPhone := phone }]
          emitted := st.emitted ++ [Emitted.reservationCreated] }
      | none => { st with attempts := st.attempts + 1 }
    else { st with attempts := st.attempts + 1 }
  | _, _, _ => { st with attempts := st.attempts + 1 }

/-- `CallHandlerService.handleSpeechResponse(params, business)`
(tts.service.js 922-1056). A missing session entry routes to
`handleCallEnd(callSid, 'no-state')` with no call state. Otherwise the
caller turn is logged (with its confidence), `turnCount` incremented,
`generateResponse` run with the already-extended history, the intent and
extracted draft fields merged into the session, the assistant turn logged,
a reservation created when the draft is complete, and the call ended when
`shouldEndCall` fires — otherwise a `call:turn` event is emitted and the
bot keeps gathering speech. -/
def handleSpeechResponse (business : Business) (text : String)
    (confidence : ℚ) (env : TurnEnv) (st : OrchState) : OrchState :=
  match st.session with
  | none => handleCallEnd "no-state" none true st
  | some cs0 =>
    let cs1 : CallState :=
      { cs0 with
        conversation := cs0.conversation ++
          [{ role := Role.user, content := text, confidence := some confidence }]
        turnCount := cs0.turnCount + 1 }
    let g := generateResponse
      { userMessage := text, conversationHistory := cs1.conversation,
        businessId := business.id } env.gpt
    let cs2 : CallState :=
      { cs1 with
        currentIntent := some g.intent
        reservationData :=
          match g.extractedData with
          | some extracted => mergeResData cs1.reservationData extracted
          | none => cs1.reservationData }
    let cs3 : CallState :=
      { cs2 with
        conversation := cs2.conversation ++
          [{ role := Role.assistant, content := g.text,
             intent := some g.intent, tokens := g.tokensUsed }] }
    let st1 := { st with session := some cs3, modelCalls := st.modelCalls + g.responderCalls }
    let st2 := if shouldCreateReservation cs3 then createReservation business cs3 st1 else st1
    if shouldEndCall g cs3 then
      handleCallEnd "completed" (some cs3) env.finalizeOk st2
    else
      { st2 with emitted := st2.emitted ++ [Emitted.callTurn] }

/-- `CallHandlerService.handleTimeout(params, business)` (tts.service.js
1061-1096). A missing session routes to `handleCallEnd(callSid, 'timeout')`
with no call state; otherwise `timeoutCount` is incremented, and at 2 the
call is ended with reason `timeout`, else the bot re-prompts ("האם אתה
עדיין שם?") and keeps gathering. -/
def handleTimeout (env : TimeoutEnv) (st : OrchState) : OrchState :=
  match st.session with
  | none => handleCallEnd "timeout" none true st
  | some cs0 =>
    let cs1 := { cs0 with timeoutCount := cs0.timeoutCount + 1 }
    let st1 := { st with session := some cs1 }
    if cs1.timeoutCount ≥ 2 then
      handleCallEnd "timeout" (some cs1) env.finalizeOk st1
    else st1

/-- One webhook event processed by the orchestrator for the tracked call. -/
def step (business : Business) (st : OrchState) : Event → OrchState
  | Event.speech text confidence env => handleSpeechResponse business text confidence env st
  | Event.timeout env => handleTimeout env st

def run (business : Business) (st : OrchState) (events : List Event) : OrchState :=
  events.foldl (step business) st

/-- The orchestrator state right after `handleIncomingCall` created the
session entry (tts.service.js 839-847) and emitted `call:started`. -/
def initState : OrchState :=
  { session := some {}, emitted := [Emitted.callStarted] }

/-! ## Cost accounting (Call.model.js `pre('save')` hook, lines 184-221) -/

/-- The `metrics` subdocument fields the hook reads, plus the
response-time fields that share the same subdocument. -/
structure CallMetrics where
  avgResponseTime : ℚ := 0
  maxResponseTime : ℚ := 0
  sttAccuracy : ℚ := 0
  ttsCharacters : Option Nat := none
  gptTokensInput : Option Nat := none
  gptTokensOutput : Option Nat := none
  gptModel : Option String := none
deriving DecidableEq, Repr

structure CostBreakdown where
  twilio : ℚ := 0
  googleSTT : ℚ := 0
  googleTTS : ℚ := 0
  openAI : ℚ := 0
  total : ℚ := 0
deriving DecidableEq, Repr

/-- Environment unit rates read by the hook (`parseFloat(process.env...)`
with their defaults). -/
structure CostRates where
  perMinuteTwilio : ℚ := 2 / 100
  perMinuteGoogleSTT : ℚ := 16 / 1000
  per1kTokensGpt35 : ℚ := 2 / 1000
deriving DecidableEq, Repr

def defaultRates : CostRates := {}

/-- The Call document fields the pre-save hook touches. -/
structure CallDoc where
  duration : ℚ := 0
  metrics : Option CallMetrics := none
  costs : CostBreakdown := {}
  errorCount : Nat := 0
  hadErrors : Bool := false
deriving DecidableEq, Repr

/-- The recomputation body of the hook: per-service costs from duration and
token metrics, TTS cost estimated from duration at 800 chars/minute, and
the final USD→ILS conversion at 3.7. When the `metrics` subdocument is
absent, `costs.openAI` keeps its previous value. -/
def recomputeCosts (rates : CostRates) (duration : ℚ)
    (metrics : Option CallMetrics) (prevOpenAI : ℚ) : CostBreakdown :=
  let minutes := duration / 60
  let twilio := minutes * rates.perMinuteTwilio
  let googleSTT := minutes * rates.perMinuteGoogleSTT
  let avgCharsPerMinute : ℚ := 800
  let googleTTS := minutes * avgCharsPerMinute / 1000000 * 16
  let openAI :=
    match metrics with
    | none => prevOpenAI
    | some m =>
      let inputTokens : ℚ := m.gptTokensInput.getD 0
      let outputTokens : ℚ := m.gptTokensOutput.getD 0
      if m.gptModel = some "gpt-4-turbo-preview" then
        inputTokens / 1000 * (1 / 100) + outputTokens / 1000 * (3 / 100)
      else
        (inputTokens + outputTokens) / 1000 * rates.per1kTokensGpt35
  let usdToIls : ℚ := 37 / 10
  { twilio := twilio, googleSTT := googleSTT, googleTTS := googleTTS,
    openAI := openAI,
    total := (twilio + googleSTT + googleTTS + openAI) * usdToIls }

/-- `CallSchema.pre('save')` (Call.model.js 184-221): the cost ledger is
recomputed when `isModified('duration')` or `isModified('metrics')` holds
(the latter is true when ANY field of the `metrics` subdocument changed);
`hadErrors` is refreshed on every save. -/
def callPreSave (rates : CostRates) (c : CallDoc)
    (modifiedDuration modifiedMetrics : Bool) : CallDoc :=
  let c1 :=
    if modifiedDuration || modifiedMetrics then
      { c with costs := recomputeCosts rates c.duration c.metrics c.costs.openAI }
    else c
  { c1 with hadErrors := decide (0 < c1.errorCount) }

/-! ## Observations and predicates used by the theorems -/

/-- Drop the recorded recognition confidence from a logged turn. -/
def stripTurnConfidence (t : Turn) : Turn :=
  { t with confidence := none }

/-- A call state up to the recorded recognition confidences. -/
def stripConfidence (cs : CallState) : CallState :=
  { cs with conversation := cs.conversation.map stripTurnConfidence }

/-- An orchestrator state up to the recorded recognition confidences. -/
def stripConfidenceState (st : OrchState) : OrchState :=
  { st with session := st.session.map stripConfidence }

/-- An event whose end-of-call persistence (when it runs) completes without
throwing, i.e. the `handleCallEnd` happy path. -/
def Event.honest : Event → Prop
  | Event.speech _ _ env => env.finalizeOk = true
  | Event.timeout env => env.finalizeOk = true

/-- Invariant tied to the booking attempt counter: a live session has made
no booking attempt yet and its draft is still incomplete (the turn that
completes the draft books and ends the call in the same handler run). -/
def SessionInv (st : OrchState) : Prop :=
  st.attempts ≤ 1 ∧
  ∀ cs, st.session = some cs → st.attempts = 0 ∧ shouldCreateReservation cs = false

/-! ## Concrete fixtures used by the theorems and witnesses -/

def testBusiness : Business := { id := 7 }

/-- The demo business seeded by `src/src/scripts/seed.js` has
`reservationSettings.maxPartySize: 15`. -/
def seedBusiness : Business :=
  { id := 1, reservationSettings := { enabled := true, maxPartySize := 15 } }

/-- A FAQ cache with no live entry (miss, expired, or empty). -/
def missCache : String → Option CachedFAQ := fun _ => none

/-- A FAQ cache holding one live hours answer for `testBusiness`. -/
def hoursCache : String → Option CachedFAQ := fun k =>
  if k = faqKey 7 "מתי פתוח" then
    some { answer := "פתוחים עד עשר בערב", intent := Intent.hours }
  else none

/-- The interleaving of two concurrent booking attempts in which both
availability reads happen before either creation. -/
def c1Schedule : List RaceOp :=
  [RaceOp.check1, RaceOp.check2, RaceOp.commit1, RaceOp.commit2]

/-- Scenario A run: capacity-50 slot, two concurrent bookings of party
size 30 under the read-read-write-write interleaving. -/
def c1Final : RaceState := runRace testBusiness 3 "19:00" 30 30 c1Schedule

/-- Cache miss, OpenAI replies normally. -/
def c3env : TurnEnv :=
  { gpt := { faqCache := missCache, openaiResult := some ("תשובה", 42) } }

/-- Cache miss and the OpenAI call throws (`generateResponse` catch). -/
def failEnv : TurnEnv := { gpt := { faqCache := missCache } }

/-- An extraction result carrying a complete reservation draft, phone
included (so `Reservation.create` passes its required-field validation). -/
def fullDraft : ResData :=
  { date := some 5, time := some "19:00", partySize := some 4,
    customerName := some "משה", customerPhone := some "0501234567" }

/-- A reservation-intent turn whose extraction completes the draft, with
the end-of-call persistence throwing before session cleanup. -/
def c5env1 : TurnEnv :=
  { gpt := { faqCache := missCache, openaiResult := some ("בסדר", 10),
             extractionResult := some fullDraft },
    finalizeOk := false }

/-- A later ordinary turn (general intent, no extraction). -/
def c5env2 : TurnEnv :=
  { gpt := { faqCache := missCache, openaiResult := some ("אוקיי", 5) } }

def c5trace : List Event :=
  [Event.speech "רוצה להזמין" 1 c5env1, Event.speech "שלום" 1 c5env2]

/-- A pipeline response with a non-farewell, non-reservation intent. -/
def genericResponse : GPTResponse := { text := "x", intent := Intent.general }

/-- A session that has just reached the hard cap of 20 caller turns. -/
def cap20State : CallState :=
  { currentIntent := some Intent.general, turnCount := 20 }

/-- A one-minute call whose ledger was never computed, saved after only
`metrics.avgResponseTime` changed (so `isModified('metrics')` is true while
the duration and the token/character metrics are unchanged). -/
def c9Doc : CallDoc :=
  { duration := 60, metrics := some { avgResponseTime := 5 } }

/-- The state after a session was closed by two silence timeouts:
terminal finalization has completed and the session entry is removed. -/
def endedState : OrchState :=
  run testBusiness initState [Event.timeout {}, Event.timeout {}]

/-! ## Helper lemmas -/

/-- `generateResponse` reads the conversation history only through its
length (in `selectModel`), so histories of equal length give equal
responses. -/
theorem generateResponse_histLen (msg : String) (bid : Nat)
    (h₁ h₂ : List Turn) (env : GPTEnv) (hlen : h₁.length = h₂.length) :
    generateResponse ⟨msg, h₁, bid⟩ env = generateResponse ⟨msg, h₂, bid⟩ env := by
  unfold generateResponse
  cases checkFAQCache env.faqCache bid msg with
  | some hit => rfl
  | none => simp only [selectModel, hlen]

/-- Only reservation-intent turns can carry extracted draft fields. -/
theorem generateResponse_extracted_intent (p : GPTParams) (env : GPTEnv)
    (ex : ResData) (h : (generateResponse p env).extractedData = some ex) :
    (generateResponse p env).intent = Intent.reservation := by
  unfold generateResponse at h ⊢
  cases hc : checkFAQCache env.faqCache p.businessId p.userMessage with
  | some hit => rw [hc] at h; simp at h
  | none =>
    cases ho : env.openaiResult with
    | none => rw [hc, ho] at h; simp at h
    | some pair =>
      obtain ⟨text, tokens⟩ := pair
      by_cases hi : detectIntent p.userMessage = Intent.reservation
      · exact hi
      · rw [hc, ho] at h; simp [extractStructuredData, hi] at h

/-- When the pipeline intent is `reservation`, the current intent is
`reservation` and the draft is complete, `shouldEndCall` fires. -/
theorem shouldEndCall_of_reservation (g : GPTResponse) (cs : CallState)
    (hcur : cs.currentIntent = some Intent.reservation)
    (hcreate : shouldCreateReservation cs = true) :
    shouldEndCall g cs = true := by
  unfold shouldEndCall
  split
  · rfl
  · split
    · rfl
    · split
      · rfl
      · simp_all

/-! ## C1 — slot arbitration under concurrency -/

/-- C1: the claim states that under concurrent booking attempts the
committed occupancy never exceeds the slot capacity and that, with
capacity 50 and two concurrent party-size-30 bookings, exactly one commits
while the other gets NOT_AVAILABLE. The code violates this:
`createReservation` runs `checkAvailability` and `Reservation.create` as
two separate store operations with no revalidation, so in the interleaving
where both availability reads precede both creations, both attempts commit
and the slot holds 60 guests, exceeding the hardcoded capacity of 50. -/
theorem c1_concurrent_overbooking :
    c1Final.booked1 = some true ∧ c1Final.booked2 = some true ∧
    slotOccupancy c1Final.store testBusiness.id 3 "19:00" = 60 ∧
    maxCapacityPerSlot < slotOccupancy c1Final.store testBusiness.id 3 "19:00" := by
  decide

/-! ## C2 — slot capacity source -/

/-- C2: the claim states the availability check uses the business-configured
maximum party count as the slot capacity. The code instead uses the
hardcoded constant `maxCapacityPerSlot = 50` and ignores the business's
`reservationSettings` entirely: the seeded business configures
`maxPartySize: 15`, yet a party of 20 on an empty slot is reported
available, and changing the settings never changes the result. -/
theorem c2_capacity_hardcoded :
    (checkAvailability seedBusiness [] 2 "20:00" 20).available = true ∧
    seedBusiness.reservationSettings.maxPartySize < 20 ∧
    ∀ (b : Business) (s : ReservationSettings) (store : List Reservation)
      (date : Nat) (time : String) (partySize : Nat),
      checkAvailability { b with reservationSettings := s } store date time partySize
        = checkAvailability b store date time partySize := by
  refine ⟨by decide, by decide, fun b s store date time partySize => rfl⟩

/-! ## C7 — hard cap on caller turns -/

/-- C7: the claim states that once `turnCount` has reached the hard cap of
20, the session is forced to ENDING. The end-condition gate `shouldEndCall`
uses the strict comparison `turnCount > 20`, so at exactly 20 caller turns
(with a generic intent, no farewell, incomplete draft) the call
continues. -/
theorem c7_counterexample_cap_at_20 :
    cap20State.turnCount = 20 ∧ shouldEndCall genericResponse cap20State = false := by
  decide

/-- C7 (amended): after a successful pipeline run the session is forced to
end once `turnCount` exceeds 20, i.e. from the 21st caller turn on,
regardless of the response intent and the rest of the session state. -/
theorem c7_amended_cap_exceeded (g : GPTResponse) (cs : CallState)
    (h : 20 < cs.turnCount) : shouldEndCall g cs = true := by
  simp [shouldEndCall, h]

/-- C7 witness: the amended cap fires at 21 caller turns. -/
theorem c7_amended_cap_exceeded_witness :
    shouldEndCall genericResponse { turnCount := 21 } = true :=
  c7_amended_cap_exceeded genericResponse { turnCount := 21 } (by decide)

/-! ## C8 — FAQ cache hits cost nothing -/

/-- C8: a live FAQ-cache entry at the `(businessId, normalized text)`
fingerprint makes `generateResponse` return the cached answer with
`tokensUsed = 0` and `model = 'cache'`, issuing no OpenAI call and writing
nothing: tier selection and generation are skipped and the turn incurs
zero generation cost. -/
theorem c8_faq_cache_hit_zero_cost (p : GPTParams) (env : GPTEnv)
    (hit : CachedFAQ)
    (h : env.faqCache (faqKey p.businessId p.userMessage) = some hit) :
    generateResponse p env =
      { text := hit.answer, intent := hit.intent, tokensUsed := some 0,
        model := some "cache", source := some "faq_cache",
        responderCalls := 0 } := by
  unfold generateResponse checkFAQCache
  rw [h]

/-- C8 witness: a repeat hours question of business 7 hits the live cache
entry and is answered with zero tokens. -/
theorem c8_faq_cache_hit_zero_cost_witness :
    generateResponse ⟨"מתי פתוח", [], 7⟩ { faqCache := hoursCache } =
      { text := "פתוחים עד עשר בערב", intent := Intent.hours,
        tokensUsed := some 0, model := some "cache",
        source := some "faq_cache", responderCalls := 0 } :=
  c8_faq_cache_hit_zero_cost ⟨"מתי פתוח", [], 7⟩ { faqCache := hoursCache }
    { answer := "פתוחים עד עשר בערב", intent := Intent.hours } (by decide)

/-! ## C6 — silence timeouts -/

/-- C6: each SilenceTimeout increments the session's `timeoutCount`; after
the first (count 1 < 2) the orchestrator re-prompts and keeps listening
(session retained, nothing emitted), and on the second consecutive timeout
the session is closed and `call:ended` is emitted with reason `timeout`. -/
theorem c6_double_timeout_ends_call (business : Business) (st : OrchState)
    (cs : CallState) (env1 env2 : TimeoutEnv)
    (hs : st.session = some cs) (h0 : cs.timeoutCount = 0)
    (hf : env2.finalizeOk = true) :
    (step business st (Event.timeout env1)).session
        = some { cs with timeoutCount := 1 } ∧
    (step business st (Event.timeout env1)).emitted = st.emitted ∧
    (step business (step business st (Event.timeout env1)) (Event.timeout env2)).session
        = none ∧
    (step business (step business st (Event.timeout env1)) (Event.timeout env2)).emitted
        = st.emitted ++ [Emitted.callEnded "timeout"] := by
  simp [step, handleTimeout, handleCallEnd, hs, h0, hf]

/-- C6 witness: a fresh session hit by two consecutive silence timeouts. -/
theorem c6_double_timeout_ends_call_witness :
    (step testBusiness initState (Event.timeout {})).session
        = some { timeoutCount := 1 } ∧
    (step testBusiness initState (Event.timeout {})).emitted = [Emitted.callStarted] ∧
    (step testBusiness (step testBusiness initState (Event.timeout {})) (Event.timeout {})).session
        = none ∧
    (step testBusiness (step testBusiness initState (Event.timeout {})) (Event.timeout {})).emitted
        = [Emitted.callStarted, Emitted.callEnded "timeout"] := by
  exact c6_double_timeout_ends_call testBusiness initState {} {} {} rfl rfl rfl

/-! ## C10 — behavior after the session is closed -/

/-- C10: the claim states that once a session is closed, late or duplicate
events are discarded via the generation counter without re-running
finalization or event emission. No generation counter exists, and a third
(late) timeout webhook after the session was removed is routed through
`handleCallEnd` again, which emits a second `call:ended` event. -/
theorem c10_counterexample_late_event_reemits :
    (run testBusiness initState
        [Event.timeout {}, Event.timeout {}, Event.timeout {}]).emitted
      = [Emitted.callStarted, Emitted.callEnded "timeout",
         Emitted.callEnded "timeout"] := by
  decide

/-- C10 (amended): after the session entry is removed, a late or duplicate
event adds no turns and mutates no session state, store entry, booking
attempt or model-call count — but it is not silently discarded: it re-runs
`handleCallEnd`, emitting one more `call:ended` event (reason `no-state`
for speech, `timeout` for a timeout). -/
theorem c10_amended_late_events_no_mutation (business : Business)
    (st : OrchState) (e : Event) (h : st.session = none) :
    (step business st e).session = none ∧
    (step business st e).attempts = st.attempts ∧
    (step business st e).store = st.store ∧
    (step business st e).modelCalls = st.modelCalls ∧
    ∃ reason, (step business st e).emitted = st.emitted ++ [Emitted.callEnded reason] := by
  cases e with
  | speech text confidence env =>
    refine ⟨?_, ?_, ?_, ?_, "no-state", ?_⟩ <;>
      simp [step, handleSpeechResponse, handleCallEnd, h]
  | timeout env =>
    refine ⟨?_, ?_, ?_, ?_, "timeout", ?_⟩ <;>
      simp [step, handleTimeout, handleCallEnd, h]

/-- C10 witness: a late timeout against an already-closed session. -/
theorem c10_amended_late_events_no_mutation_witness :
    (step testBusiness endedState (Event.timeout {})).session = none ∧
    (step testBusiness endedState (Event.timeout {})).attempts = endedState.attempts ∧
    (step testBusiness endedState (Event.timeout {})).store = endedState.store ∧
    (step testBusiness endedState (Event.timeout {})).modelCalls = endedState.modelCalls ∧
    ∃ reason, (step testBusiness endedState (Event.timeout {})).emitted
      = endedState.emitted ++ [Emitted.callEnded reason] :=
  c10_amended_late_events_no_mutation testBusiness endedState (Event.timeout {}) (by decide)

/-! ## C4 — responder failures -/

/-- C4: the claim states responder failures are non-fatal (fixed apology,
keep listening) and that 2 consecutive failures force ENDING. The first
part holds, but no failure counter exists: after two consecutive responder
failures the session is still live and listening, with the fixed apology
spoken on both turns and a normal `call:turn` emitted each time. -/
theorem c4_counterexample_no_failure_escalation :
    (run testBusiness initState
        [Event.speech "אבגד" 1 failEnv, Event.speech "אבגד" 1 failEnv]).session.isSome
      = true ∧
    (run testBusiness initState
        [Event.speech "אבגד" 1 failEnv, Event.speech "אבגד" 1 failEnv]).emitted
      = [Emitted.callStarted, Emitted.callTurn, Emitted.callTurn] ∧
    ((run testBusiness initState
        [Event.speech "אבגד" 1 failEnv, Event.speech "אבגד" 1 failEnv]).session.map
      (fun cs => cs.conversation.map Turn.content))
      = some ["אבגד", fallbackText, "אבגד", fallbackText] := by
  decide

/-- C4 (amended): a responder failure or timeout is non-fatal for the
session: the caller turn is logged, the fixed apology reply (intent
`error`) is spoken, and the session keeps listening — for any number of
consecutive failures; no failure counter exists, so failures alone never
force ENDING (only the other end conditions, such as the turn cap, do). -/
theorem c4_amended_failure_nonfatal (business : Business) (st : OrchState)
    (cs : CallState) (text : String) (c : ℚ) (env : TurnEnv)
    (hs : st.session = some cs)
    (hmiss : env.gpt.faqCache (faqKey business.id text) = none)
    (hfail : env.gpt.openaiResult = none)
    (hcap : cs.turnCount + 1 ≤ 20)
    (hdraft : shouldCreateReservation cs = false) :
    (step business st (Event.speech text c env)).session
      = some { cs with
          conversation := cs.conversation ++
            [{ role := Role.user, content := text, confidence := some c },
             { role := Role.assistant, content := fallbackText,
               intent := some Intent.error }]
          currentIntent := some Intent.error
          turnCount := cs.turnCount + 1 } ∧
    (step business st (Event.speech text c env)).emitted
      = st.emitted ++ [Emitted.callTurn] ∧
    (step business st (Event.speech text c env)).attempts = st.attempts := by
  have hcap2 : ¬(cs.turnCount + 1 > 20) := by omega
  simp only [step, handleSpeechResponse, hs]
  simp only [generateResponse, checkFAQCache, hmiss, hfail]
  simp only [shouldCreateReservation] at hdraft
  simp [shouldCreateReservation, shouldEndCall, hdraft, hcap2, List.append_assoc]

/-- C4 witness: a fresh session whose first turn hits a responder failure
keeps listening with the apology logged. -/
theorem c4_amended_failure_nonfatal_witness :
    (step testBusiness initState (Event.speech "אבגד" 1 failEnv)).session
      = some {
          conversation :=
            [{ role := Role.user, content := "אבגד", confidence := some 1 },
             { role := Role.assistant, content := fallbackText, intent := some Intent.error }]
          currentIntent := some Intent.error
          turnCount := 1 } ∧
    (step testBusiness initState (Event.speech "אבגד" 1 failEnv)).emitted
      = [Emitted.callStarted, Emitted.callTurn] ∧
    (step testBusiness initState (Event.speech "אבגד" 1 failEnv)).attempts = 0 := by
  exact c4_amended_failure_nonfatal testBusiness initState {} "אבגד" 1 failEnv
    rfl rfl rfl (by decide) (by decide)

/-! ## Strip lemmas: confidence-erasure observations -/

theorem any_goodbye_strip (l : List Turn) :
    l.any (fun t => t.role == Role.user && goodbyeMatch t.content)
      = (l.map stripTurnConfidence).any
          (fun t => t.role == Role.user && goodbyeMatch t.content) := by
  rw [List.any_map]
  rfl

theorem strip_reservationData (cs : CallState) :
    (stripConfidence cs).reservationData = cs.reservationData := rfl

theorem strip_turnCount (cs : CallState) :
    (stripConfidence cs).turnCount = cs.turnCount := rfl

theorem strip_currentIntent (cs : CallState) :
    (stripConfidence cs).currentIntent = cs.currentIntent := rfl

theorem strip_conversation (cs : CallState) :
    (stripConfidence cs).conversation = cs.conversation.map stripTurnConfidence := rfl

/-- `shouldCreateReservation` only reads the draft, which confidence
erasure preserves. -/
theorem shouldCreate_strip (d₁ d₂ : CallState)
    (h : stripConfidence d₁ = stripConfidence d₂) :
    shouldCreateReservation d₁ = shouldCreateReservation d₂ := by
  have hres : d₁.reservationData = d₂.reservationData := by
    rw [← strip_reservationData d₁, ← strip_reservationData d₂, h]
  simp [shouldCreateReservation, hres]

/-- `shouldEndCall` reads only confidence-independent parts of the state. -/
theorem shouldEnd_strip (g : GPTResponse) (d₁ d₂ : CallState)
    (h : stripConfidence d₁ = stripConfidence d₂) :
    shouldEndCall g d₁ = shouldEndCall g d₂ := by
  have hres : d₁.reservationData = d₂.reservationData := by
    rw [← strip_reservationData d₁, ← strip_reservationData d₂, h]
  have hturn : d₁.turnCount = d₂.turnCount := by
    rw [← strip_turnCount d₁, ← strip_turnCount d₂, h]
  have hint : d₁.currentIntent = d₂.currentIntent := by
    rw [← strip_currentIntent d₁, ← strip_currentIntent d₂, h]
  have hconv : d₁.conversation.map stripTurnConfidence
      = d₂.conversation.map stripTurnConfidence := by
    rw [← strip_conversation d₁, ← strip_conversation d₂, h]
  have hany : d₁.conversation.any (fun t => t.role == Role.user && goodbyeMatch t.content)
      = d₂.conversation.any (fun t => t.role == Role.user && goodbyeMatch t.content) := by
    rw [any_goodbye_strip d₁.conversation, any_goodbye_strip d₂.conversation, hconv]
  unfold shouldEndCall
  rw [hany, hturn, hint, shouldCreate_strip d₁ d₂ h]

/-- The continuation of `handleSpeechResponse` after the pipeline response
is fixed (reservation creation, end-of-call decision, event emission) is
invariant under confidence erasure of the session state it operates on. -/
theorem speech_tail_strip (business : Business) (base : OrchState) (g : GPTResponse)
    (fin : Bool) (d₁ d₂ : CallState) (h : stripConfidence d₁ = stripConfidence d₂) :
    stripConfidenceState
      (if shouldEndCall g d₁ = true then
        handleCallEnd "completed" (some d₁) fin
          (if shouldCreateReservation d₁ = true then
            createReservation business d₁ { base with session := some d₁ }
          else { base with session := some d₁ })
      else
        { (if shouldCreateReservation d₁ = true then
            createReservation business d₁ { base with session := some d₁ }
          else { base with session := some d₁ }) with
          emitted := (if shouldCreateReservation d₁ = true then
            createReservation business d₁ { base with session := some d₁ }
          else { base with session := some d₁ }).emitted ++ [Emitted.callTurn] })
      = stripConfidenceState
      (if shouldEndCall g d₂ = true then
        handleCallEnd "completed" (some d₂) fin
          (if shouldCreateReservation d₂ = true then
            createReservation business d₂ { base with session := some d₂ }
          else { base with session := some d₂ })
      else
        { (if shouldCreateReservation d₂ = true then
            createReservation business d₂ { base with session := some d₂ }
          else { base with session := some d₂ }) with
          emitted := (if shouldCreateReservation d₂ = true then
            createReservation business d₂ { base with session := some d₂ }
          else { base with session := some d₂ }).emitted ++ [Emitted.callTurn] }) := by
  have hres : d₁.reservationData = d₂.reservationData := by
    rw [← strip_reservationData d₁, ← strip_reservationData d₂, h]
  rw [shouldEnd_strip g d₁ d₂ h, shouldCreate_strip d₁ d₂ h]
  cases fin <;>
    by_cases hend : shouldEndCall g d₂ = true <;>
    by_cases hcr : shouldCreateReservation d₂ = true <;>
    simp [hend, hcr, createReservation, handleCallEnd, hres, stripConfidenceState, h] <;>
    (try split) <;> (try split) <;> (try split) <;>
    simp [stripConfidenceState, h]

/-! ## Structural lemmas on the orchestrator -/

theorem createReservation_attempts (b : Business) (cs : CallState) (st : OrchState) :
    (createReservation b cs st).attempts = st.attempts + 1 := by
  unfold createReservation
  split <;> (try split) <;> (try split) <;> rfl

theorem handleCallEnd_ok (r : String) (cs : CallState) (st : OrchState) :
    handleCallEnd r (some cs) true st
      = { st with session := none, emitted := st.emitted ++ [Emitted.callEnded r] } := by
  simp [handleCallEnd]

theorem handleCallEnd_noState (r : String) (fin : Bool) (st : OrchState) :
    handleCallEnd r none fin st
      = { st with session := none, emitted := st.emitted ++ [Emitted.callEnded r] } := by
  simp [handleCallEnd]

/-! ## C3 — no confidence floor exists -/

/-- C3: the claim states that a below-floor recognition confidence makes
the pipeline skip generation and return a clarification request without a
model call. In the code no confidence comparison exists anywhere: with
confidence 0 (below any conceivable floor) and a FAQ-cache miss, the
OpenAI responder is invoked (one model call consumed) and its generated
answer is spoken, not a clarification-skip reply. -/
theorem c3_counterexample_confidence_ignored :
    (step testBusiness initState (Event.speech "אבגד" 0 c3env)).modelCalls = 1 ∧
    ((step testBusiness initState (Event.speech "אבגד" 0 c3env)).session.map
      (fun cs => cs.conversation.map Turn.content)) = some ["אבגד", "תשובה"] := by
  decide

/-- C3 (amended): the pipeline performs no confidence check at all — the
recognition confidence is recorded on the logged caller turn and nothing
else: for any two confidence values the resulting orchestrator states are
identical up to the recorded confidences (same replies, same model calls,
same events, same booking attempts, same end-of-call decisions). -/
theorem c3_amended_confidence_never_consulted (business : Business)
    (st : OrchState) (text : String) (c₁ c₂ : ℚ) (env : TurnEnv) :
    stripConfidenceState (step business st (Event.speech text c₁ env))
      = stripConfidenceState (step business st (Event.speech text c₂ env)) := by
  cases hs : st.session with
  | none => simp [step, handleSpeechResponse, hs]
  | some cs0 =>
    simp only [step, handleSpeechResponse, hs]
    have hg : generateResponse
        { userMessage := text,
          conversationHistory := cs0.conversation ++
            [{ role := Role.user, content := text, confidence := some c₁,
               intent := none, tokens := none }],
          businessId := business.id } env.gpt
        = generateResponse
        { userMessage := text,
          conversationHistory := cs0.conversation ++
            [{ role := Role.user, content := text, confidence := some c₂,
               intent := none, tokens := none }],
          businessId := business.id } env.gpt :=
      generateResponse_histLen text business.id _ _ env.gpt (by simp)
    rw [hg]
    refine speech_tail_strip business
      { st with modelCalls := st.modelCalls + (generateResponse
          { userMessage := text,
            conversationHistory := cs0.conversation ++
              [{ role := Role.user, content := text, confidence := some c₂,
                 intent := none, tokens := none }],
            businessId := business.id } env.gpt).responderCalls }
      (generateResponse
          { userMessage := text,
            conversationHistory := cs0.conversation ++
              [{ role := Role.user, content := text, confidence := some c₂,
                 intent := none, tokens := none }],
            businessId := business.id } env.gpt)
      env.finalizeOk _ _ ?_
    simp [stripConfidence, stripTurnConfidence]

/-! ## C5 — at most one booking attempt per session -/

/-- C5: the claim states a booking attempt happens at most once per call
regardless of further turns after the draft completes. The only mechanism
enforcing this is that the completing turn ends the call; when the
end-of-call persistence throws before `activeCalls.delete` runs, the
session (with its complete, phone-bearing draft) survives, and the very
next caller turn runs `createReservation` again: two booking attempts and
two committed reservations for one call. -/
theorem c5_counterexample_second_attempt :
    (run testBusiness initState c5trace).attempts = 2 ∧
    (run testBusiness initState c5trace).store.length = 2 := by
  decide

/-- Honest steps preserve the booking invariant: a live session has made
no attempt and holds an incomplete draft, because a turn that completes
the draft (necessarily a reservation-intent turn) books and ends the call
in the same handler run. -/
theorem step_honest_inv (business : Business) (st : OrchState) (e : Event)
    (he : Event.honest e) (hinv : SessionInv st) :
    SessionInv (step business st e) := by
  obtain ⟨hA, hB⟩ := hinv
  cases e with
  | timeout env =>
    cases hs : st.session with
    | none =>
      simp only [step, handleTimeout, hs, handleCallEnd_noState]
      exact ⟨hA, fun cs hcs => by simp at hcs⟩
    | some cs0 =>
      obtain ⟨h0, hcr⟩ := hB cs0 hs
      simp only [step, handleTimeout, hs]
      by_cases hto : cs0.timeoutCount + 1 ≥ 2
      · rw [if_pos hto, show env.finalizeOk = true from he, handleCallEnd_ok]
        exact ⟨by simpa using hA, fun cs hcs => by simp at hcs⟩
      · rw [if_neg hto]
        refine ⟨by simpa using hA, fun cs hcs => ?_⟩
        obtain rfl := Option.some.inj hcs
        exact ⟨h0, hcr⟩
  | speech text c env =>
    cases hs : st.session with
    | none =>
      simp only [step, handleSpeechResponse, hs, handleCallEnd_noState]
      exact ⟨hA, fun cs hcs => by simp at hcs⟩
    | some cs0 =>
      obtain ⟨h0, hcr⟩ := hB cs0 hs
      simp only [step, handleSpeechResponse, hs]
      split
      next hend =>
        rw [show env.finalizeOk = true from he, handleCallEnd_ok]
        refine ⟨?_, fun cs hcs => by simp at hcs⟩
        split
        next hcreate => rw [createReservation_attempts]; simp; omega
        next hncreate => simpa using hA
      next hend =>
        split
        next hcreate =>
          exfalso
          cases hx : (generateResponse
              { userMessage := text,
                conversationHistory := cs0.conversation ++
                  [{ role := Role.user, content := text, confidence := some c,
                     intent := none, tokens := none }],
                businessId := business.id } env.gpt).extractedData with
          | none =>
            rw [hx] at hcreate
            exact absurd hcreate (by simpa [shouldCreateReservation] using hcr)
          | some ex =>
            have gi := generateResponse_extracted_intent _ _ _ hx
            exact hend (shouldEndCall_of_reservation _ _ (by simp [gi]) hcreate)
        next hncreate =>
          refine ⟨by simpa using hA, fun cs hcs => ?_⟩
          obtain rfl := Option.some.inj (by simpa using hcs)
          exact ⟨by simpa using h0, by simpa using hncreate⟩

theorem run_honest_inv (business : Business) (evs : List Event) (st : OrchState)
    (he : ∀ e ∈ evs, Event.honest e) (h : SessionInv st) :
    SessionInv (run business st evs) := by
  induction evs generalizing st with
  | nil => exact h
  | cons e rest ih =>
    exact ih (step business st e) (fun x hx => he x (List.mem_cons_of_mem e hx))
      (step_honest_inv business st e (he e (List.mem_cons_self e rest)) h)

theorem initState_inv : SessionInv initState := by
  refine ⟨by decide, fun cs hcs => ?_⟩
  obtain rfl := Option.some.inj hcs
  exact ⟨rfl, rfl⟩

/-- C5 (amended): as long as end-of-call finalization never throws, a
booking attempt (`createReservation`: availability check followed by
creation) runs at most once over the whole call, whatever events arrive;
the guarantee is lost exactly when finalization throws before session
cleanup (see the counterexample). -/
theorem c5_amended_at_most_one_attempt (business : Business) (evs : List Event)
    (he : ∀ e ∈ evs, Event.honest e) :
    (run business initState evs).attempts ≤ 1 :=
  (run_honest_inv business evs initState he initState_inv).1

/-- C5 witness: a concrete honest trace makes at most one attempt. -/
theorem c5_amended_at_most_one_attempt_witness :
    (run testBusiness initState [Event.timeout {}]).attempts ≤ 1 :=
  c5_amended_at_most_one_attempt testBusiness [Event.timeout {}] (by
    intro e hmem
    rw [List.mem_singleton] at hmem
    subst hmem
    rfl)

/-! ## C9 — cost recomputation -/

/-- Recomputing from an already-recomputed `openAI` figure is stable. -/
theorem recomputeCosts_openAI_stable (rates : CostRates) (d : ℚ)
    (m : Option CallMetrics) (p : ℚ) :
    recomputeCosts rates d m (recomputeCosts rates d m p).openAI
      = recomputeCosts rates d m p := by
  cases m <;> rfl

/-- C9: the claim states cost recomputation is triggered exactly when the
duration or the token/character metrics change. The hook fires on
`isModified('metrics')`, which is true when ANY field of the `metrics`
subdocument changed: saving `c9Doc` after only `metrics.avgResponseTime`
changed (duration and token/character metrics untouched) rewrites the
ledger: the per-service twilio figure becomes 1/50 USD for the one
minute. -/
theorem c9_counterexample_recompute_on_metrics_change :
    (callPreSave defaultRates c9Doc false true).costs ≠ c9Doc.costs ∧
    (callPreSave defaultRates c9Doc false true).costs.twilio = 1 / 50 := by
  constructor
  · intro hEq
    have h2 := congrArg CostBreakdown.twilio hEq
    norm_num [callPreSave, recomputeCosts, c9Doc, defaultRates] at h2
  · norm_num [callPreSave, recomputeCosts, c9Doc, defaultRates]

/-- C9 (amended): the cost hook is a pure, deterministic and idempotent
function of the document's duration, token counts, model name and unit
rates — running it any number of times with the same modification flags
yields the same ledger; with neither `duration` nor `metrics` modified the
ledger is untouched; and the synthesized-character count never enters the
computation (synthesis cost is estimated from duration at 800 chars per
minute), so recomputation fires on any metrics-subdocument change, not
only token/character ones. -/
theorem c9_amended_idempotent_and_trigger :
    (∀ (rates : CostRates) (c : CallDoc) (dMod mMod : Bool),
      callPreSave rates (callPreSave rates c dMod mMod) dMod mMod
        = callPreSave rates c dMod mMod) ∧
    (∀ (rates : CostRates) (c : CallDoc),
      (callPreSave rates c false false).costs = c.costs) ∧
    (∀ (rates : CostRates) (c : CallDoc) (m : CallMetrics) (chars : Option Nat)
      (dMod mMod : Bool),
      (callPreSave rates { c with metrics := some { m with ttsCharacters := chars } } dMod mMod).costs
        = (callPreSave rates { c with metrics := some m } dMod mMod).costs) := by
  refine ⟨?_, ?_, ?_⟩
  · intro rates c dMod mMod
    cases dMod <;> cases mMod <;>
      simp [callPreSave, recomputeCosts_openAI_stable]
  · intro rates c
    rfl
  · intro rates c m chars dMod mMod
    cases dMod <;> cases mMod <;> rfl

end PhoneBot
